import Mathlib

/-!
Shallow embedding of the door-control logic of
`src/ProyectoFinal/CanceladoraMetro.py` (a Flask-based metro turnstile
controller) and proofs about it.

Modelling conventions:
* The cross-process shared dictionary `estado_sistema` (a `manager.dict`)
  becomes the structure `EstadoSistema`.  The Python dictionary is keyed by
  strings; the event-processor branch for laser events writes to the keys
  produced by the f-string `laser_{laser_id}_bloqueado` where `laser_id` is
  the UPPER-case letter carried by the event, so those writes create the keys
  `laser_A_bloqueado` / `laser_B_bloqueado`, distinct from the lower-case keys
  initialised in `iniciar_sistema`.  The upper-case keys are modelled as
  `Option Bool` fields (`none` = key absent), the lower-case ones as the
  initialised `Bool` fields.
* Queue writes (`cola_comandos.put`, `cola_eventos.put`) become lists of
  emitted commands / events in the result of each operation.
* Side effects towards the LCD (`mostrar_lcd` calls), InfluxDB telemetry
  (`db_handler.write_*`) and `logger.warning` become lists in the result.
  The global `db_handler` may be `None`; it is passed as a `db : Bool` flag.
* Wall-clock time in `esperar_persona_paso` is discretised in tenths of a
  second (the polling step `time.sleep(0.1)`); the 15-second timeout is
  `ticks_timeout = 150` polls.  Sensor B is a sampling function
  `Nat → Bool` giving `laserB.is_pressed` at each poll.
* GPIO/LED/servo writes have no observable effect on the shared state and
  are not modelled; `time.sleep` calls are dropped.
-/

namespace CanceladoraMetro

/-- Commands put on `cola_comandos` (consumed by `hilo_control_puertas`
and by `hilo_monitor_laseres`). -/
inductive Comando where
  | abrir_puertas
  | cerrar_puertas
  | inicializar
  | esperar_paso
deriving DecidableEq, Repr

/-- The two crossing-detection beams.  Events produced by
`hilo_monitor_laseres` carry the identifier letter `A` or `B`. -/
inductive Laser where
  | A
  | B
deriving DecidableEq, Repr

/-- Events put on `cola_eventos` (consumed by `hilo_procesador_eventos`).
`boton_presionado` carries its origin string (`fisico` or `web`). -/
inductive Evento where
  | boton_presionado (origen : String)
  | laser_bloqueado (laser : Laser)
  | laser_libre (laser : Laser)
deriving DecidableEq, Repr

/-- The shared state dictionary `estado_sistema` created in
`iniciar_sistema` (lines 768-780), plus the two upper-case laser keys that
the event processor may add later (see the module comment). -/
structure EstadoSistema where
  estado_puerta : String
  timestamp : Option String
  total_accesos : Nat
  personas_dentro : Nat
  sistema_activo : Bool
  detectando_paso : Bool
  boton_habilitado : Bool
  usuario_actual : Option String
  ultimo_acceso : Option (Option String × String)
  laser_a_bloqueado : Bool
  laser_b_bloqueado : Bool
  laser_A_bloqueado : Option Bool
  laser_B_bloqueado : Option Bool
deriving DecidableEq, Repr

/-- The initial contents of `estado_sistema` (lines 768-780). -/
def estado_inicial : EstadoSistema :=
  { estado_puerta := "CERRADA"
    timestamp := none
    total_accesos := 0
    personas_dentro := 0
    sistema_activo := true
    detectando_paso := false
    boton_habilitado := false
    usuario_actual := none
    ultimo_acceso := none
    laser_a_bloqueado := false
    laser_b_bloqueado := false
    laser_A_bloqueado := none
    laser_B_bloqueado := none }

/-- One record written by `db_handler.write_access_event` in
`procesar_acceso_desde_evento`: `card_id` is the (already incremented)
access counter, `usuario` the bound user, `concedido` the
`access_granted` flag (the code only ever writes `True` there). -/
structure RegistroAcceso where
  card_id : Nat
  usuario : Option String
  concedido : Bool
deriving DecidableEq, Repr

/-- Observable result of one run of the body of the event-processing
branch for a button event, `procesar_acceso_desde_evento`
(lines 357-394): the new state, the commands put on `cola_comandos`,
the `mostrar_lcd` calls, the telemetry writes and the
`logger.warning` entries. -/
structure SalidaAcceso where
  estado : EstadoSistema
  comandos : List Comando
  lcd : List (String × String)
  telemetria : List RegistroAcceso
  advertencias : List String
deriving DecidableEq, Repr

/-- Model of `procesar_acceso_desde_evento` (lines 357-394).  `ts` stands for
`datetime.now().strftime("%H:%M:%S")`; `db` is whether `db_handler`
is non-`None`.
If the button is not enabled the function shows the denied message,
logs a warning and returns with nothing else changed; otherwise it
stamps the time, increments both counters, records the last access,
writes one granted telemetry record and enqueues
`abrir_puertas` followed by `esperar_paso`. -/
def procesar_acceso_desde_evento (ts : String) (db : Bool)
    (s : EstadoSistema) : SalidaAcceso :=
  if s.boton_habilitado = false then
    { estado := s
      comandos := []
      lcd := [("ACCESO DENEGADO", "Login primero"), ("Login en Web", "Para acceder")]
      telemetria := []
      advertencias := ["Intento de acceso sin login"] }
  else
    let usuario := s.usuario_actual
    let s2 : EstadoSistema :=
      { s with
        timestamp := some ts
        total_accesos := s.total_accesos + 1
        personas_dentro := s.personas_dentro + 1
        ultimo_acceso := some (usuario, ts) }
    { estado := s2
      comandos := [Comando.abrir_puertas, Comando.esperar_paso]
      lcd := []
      telemetria :=
        if db then [{ card_id := s2.total_accesos, usuario := usuario, concedido := true }]
        else []
      advertencias := [] }

/-- The laser branch of `hilo_procesador_eventos` (lines 304-312): the
write `estado_sistema[f"laser_{laser_id}_bloqueado"] = v` with the
upper-case `laser_id` carried by the event, hence the upper-case keys. -/
def pon_laser (l : Laser) (v : Bool) (s : EstadoSistema) : EstadoSistema :=
  match l with
  | Laser.A => { s with laser_A_bloqueado := some v }
  | Laser.B => { s with laser_B_bloqueado := some v }

/-- Body of the event-consumption loop `hilo_procesador_eventos`
(lines 287-320) applied to one dequeued event.  A button event is handed
to `procesar_acceso_desde_evento` unconditionally; laser events update
the laser keys. -/
def procesar_evento (ts : String) (db : Bool) (s : EstadoSistema) :
    Evento → SalidaAcceso
  | Evento.boton_presionado _ => procesar_acceso_desde_evento ts db s
  | Evento.laser_bloqueado l =>
      { estado := pon_laser l true s, comandos := [], lcd := [],
        telemetria := [], advertencias := [] }
  | Evento.laser_libre l =>
      { estado := pon_laser l false s, comandos := [], lcd := [],
        telemetria := [], advertencias := [] }

/-- One record written by `db_handler.write_door_status`. -/
structure RegistroPuerta where
  puerta : String
  detectando : Bool
deriving DecidableEq, Repr

/-- Observable result of `cerrar_puertas`. -/
structure SalidaCierre where
  estado : EstadoSistema
  lcd : List (String × String)
  telemetria : List RegistroPuerta
deriving DecidableEq, Repr

/-- Model of `cerrar_puertas` (lines 224-249): shows the closing message, sets
the door state to `CERRADA`, disables the button, unbinds the user,
writes one door-status telemetry record (with `detecting_crossing=False`
hard-coded) and shows the login prompt.  LED and servo writes are
hardware only. -/
def cerrar_puertas (db : Bool) (s : EstadoSistema) : SalidaCierre :=
  let s2 : EstadoSistema :=
    { s with
      estado_puerta := "CERRADA"
      boton_habilitado := false
      usuario_actual := none }
  { estado := s2
    lcd := [("Cerrando...", ""), ("Login en Web", "Para acceder")]
    telemetria := if db then [{ puerta := "CERRADA", detectando := false }] else [] }

/-- Number of 0.1-second polls inside the 15-second window of
`esperar_persona_paso` (`timeout = time.time() + 15`, polls every
`time.sleep(0.1)`). -/
def ticks_timeout : Nat := 150

/-- Observable result of `esperar_persona_paso`. -/
structure SalidaEspera where
  estado : EstadoSistema
  detectado : Bool
  tick_deteccion : Option Nat
  tick_libre : Option Nat
  comandos : List Comando
  advertencias : List String
deriving DecidableEq, Repr

/-- Model of `esperar_persona_paso` (lines 707-738).  `laserB k` is the sampled
value of `laserB.is_pressed` at poll `k`.  The first loop searches for a
blocked sample before the timeout; if found, the second loop searches
from that poll for a clear sample (or runs out at the timeout, a case
the code still logs as a completed crossing).  In every case the flag
`detectando_paso` (set on entry, cleared on exit) ends `false` and the
single command `cerrar_puertas` is enqueued; only the never-detected
case logs the timeout warning. -/
def esperar_persona_paso (laserB : Nat → Bool) (s : EstadoSistema) :
    SalidaEspera :=
  let s2 : EstadoSistema := { s with detectando_paso := false }
  match (List.range ticks_timeout).find? (fun k => laserB k) with
  | some k =>
      { estado := s2
        detectado := true
        tick_deteccion := some k
        tick_libre := (List.range' k (ticks_timeout - k)).find? (fun j => !(laserB j))
        comandos := [Comando.cerrar_puertas]
        advertencias := [] }
  | none =>
      { estado := s2
        detectado := false
        tick_deteccion := none
        tick_libre := none
        comandos := [Comando.cerrar_puertas]
        advertencias := ["Timeout: No se detecto paso en 15 segundos"] }

/-- Model of `reiniciar_estadisticas` (lines 548-555): zeroes both counters. -/
def reiniciar_estadisticas (s : EstadoSistema) : EstadoSistema :=
  { s with total_accesos := 0, personas_dentro := 0 }

/-- Observable door-control effect of the `logout` route (lines 484-501):
disables the button and unbinds the user, shows two messages, touches no
queue.  (`session.clear()` concerns the web session only.) -/
structure SalidaLogout where
  estado : EstadoSistema
  comandos : List Comando
  lcd : List (String × String)
deriving DecidableEq, Repr

/-- The `logout` route body restricted to the shared door-control state. -/
def logout (s : EstadoSistema) : SalidaLogout :=
  { estado := { s with boton_habilitado := false, usuario_actual := none }
    comandos := []
    lcd := [("Sesion cerrada", "Hasta pronto"), ("Login en Web", "Para acceder")] }

/-- Result of the `simular_acceso` route. -/
structure RespuestaSimular where
  estado : EstadoSistema
  exito : Bool
  status : Nat
  eventos : List Evento
deriving DecidableEq, Repr

/-- Model of `simular_acceso_manual` (lines 597-607): enqueues a web button event
iff no crossing is being detected and the button is enabled; otherwise
403 when the button is disabled, else 409.  The route body performs no
write to `estado_sistema`. -/
def simular_acceso_manual (s : EstadoSistema) : RespuestaSimular :=
  if s.detectando_paso = false ∧ s.boton_habilitado = true then
    { estado := s, exito := true, status := 200,
      eventos := [Evento.boton_presionado "web"] }
  else if s.boton_habilitado = false then
    { estado := s, exito := false, status := 403, eventos := [] }
  else
    { estado := s, exito := false, status := 409, eventos := [] }

/-- Iterated event processing: the event loop consuming one
`boton_presionado` event per element of `tss` (the successive
timestamps), threading the state. -/
def procesar_accesos (db : Bool) : List String → EstadoSistema → EstadoSistema
  | [], s => s
  | ts :: resto, s =>
      procesar_accesos db resto (procesar_acceso_desde_evento ts db s).estado

/-- The operations `mostrar_lcd` performs on the LCD object inside its
`try` block. -/
inductive OpLcd where
  | limpiar
  | escribir (texto : List Char)
  | posicionar (fila col : Nat)
deriving DecidableEq, Repr

/-- The operation sequence of the `try` block of `mostrar_lcd`
(lines 191-197): `lcd.clear()`, write of `linea1[:LCD_COLS]`, and, only
when `linea2` is non-empty, `lcd.cursor_pos = (1, 0)` and write of
`linea2[:LCD_COLS]`.  Python string slicing is character-wise, so lines
are `List Char` and the slice is `List.take`.  `cols` is
`config.LCD_COLS` (default 16). -/
def ops_mostrar (cols : Nat) (l1 l2 : List Char) : List OpLcd :=
  [OpLcd.limpiar, OpLcd.escribir (l1.take cols)] ++
    (if l2 = [] then []
     else [OpLcd.posicionar 1 0, OpLcd.escribir (l2.take cols)])

/-- Runs LCD hardware operations in order.  `falla i` is the exception
message raised by the i-th hardware call, if any (hardware behaviour is
an oracle).  On a raise, the operations already performed stand and the
error propagates together with them. -/
def ejecuta_ops (falla : Nat → Option String) :
    Nat → List OpLcd → List (List Char) →
    Except (String × List (List Char)) (List (List Char))
  | _, [], hechas => Except.ok hechas
  | i, op :: resto, hechas =>
      match falla i with
      | some e => Except.error (e, hechas)
      | none =>
          match op with
          | OpLcd.escribir t => ejecuta_ops falla (i + 1) resto (hechas ++ [t])
          | _ => ejecuta_ops falla (i + 1) resto hechas

/-- What the caller of `mostrar_lcd` observes: the writes that reached
the hardware and the errors that were logged (never raised). -/
structure SalidaLcd where
  escrituras : List (List Char)
  errores : List String
deriving DecidableEq, Repr

/-- Model of `mostrar_lcd` (lines 188-199).  When `lcd` is `None` (hardware
absent) nothing is written; otherwise the `try` block runs and any
exception is caught and logged.  The codomain is `Except` to mirror a
Python call that could in principle propagate an exception to its
caller; the theorems show it never does. -/
def mostrar_lcd (cols : Nat) (lcd_presente : Bool)
    (falla : Nat → Option String) (l1 l2 : List Char) :
    Except String SalidaLcd :=
  if lcd_presente = false then
    Except.ok { escrituras := [], errores := [] }
  else
    match ejecuta_ops falla 0 (ops_mostrar cols l1 l2) [] with
    | Except.ok ws => Except.ok { escrituras := ws, errores := [] }
    | Except.error (e, ws) => Except.ok { escrituras := ws, errores := [e] }

/-- Writes observed through the `Except` result (an error value would
mean an exception escaped to the caller). -/
def escrituras_de : Except String SalidaLcd → List (List Char)
  | Except.ok o => o.escrituras
  | Except.error _ => []

/-- Whether an `Except` result is a normal return. -/
def es_ok : Except String SalidaLcd → Bool
  | Except.ok _ => true
  | Except.error _ => false

/-- The edge event `hilo_monitor_laseres` emits for laser `l` when the
sample changes to value `v`. -/
def evento_borde (l : Laser) (v : Bool) : Evento :=
  if v then Evento.laser_bloqueado l else Evento.laser_libre l

/-- Events emitted during one poll of `hilo_monitor_laseres`
(lines 669-691): laser A is compared with its previous sample and an
edge event emitted only on change, then the same for laser B.
`prev` and `m` hold the (A, B) sample pairs. -/
def eventos_sondeo (prev m : Bool × Bool) : List Evento :=
  (if m.1 = prev.1 then [] else [evento_borde Laser.A m.1]) ++
    (if m.2 = prev.2 then [] else [evento_borde Laser.B m.2])

/-- The polling loop of `hilo_monitor_laseres` over a finite sample
trace, returning the events emitted at each poll.  In the code the
`estado_laser_*_anterior` variables are reassigned inside the changed
branch only, which is equivalent to always carrying the current sample
forward (in the unchanged branch the two values are equal); both start
`False`. -/
def monitor_laseres : Bool × Bool → List (Bool × Bool) → List (List Evento)
  | _, [] => []
  | prev, m :: ms => eventos_sondeo prev m :: monitor_laseres m ms

/-- Quiet period of the button debounce in milliseconds:
`time.sleep(0.5)` after emitting the event in `hilo_monitor_boton`
(line 649). -/
def tiempo_debounce : Nat := 500

/-- The loop of `hilo_monitor_boton` (lines 638-652) over the ordered
list of instants (in milliseconds) at which the physical button is
pressed.  `listo` is the instant from which the thread is again waiting
in `wait_for_press`: a press before it falls inside the sleep and is
suppressed; a press at or after it is emitted and the thread then
sleeps until `t + 500`. -/
def debounce_boton : Nat → List Nat → List Nat
  | _, [] => []
  | listo, t :: ts =>
      if t < listo then debounce_boton listo ts
      else t :: debounce_boton (t + tiempo_debounce) ts

/-- Check that consecutive emitted button events are at least the quiet
period apart. -/
def bien_espaciado : List Nat → Bool
  | [] => true
  | [_] => true
  | a :: b :: resto =>
      decide (a + tiempo_debounce ≤ b) && bien_espaciado (b :: resto)

/-- One field assignment `estado_sistema[...] = v` performed by the
controller: each such assignment is a single operation on the shared
`manager.dict`, serialized by the manager process. -/
inductive EscrituraCampo where
  | puerta (v : String)
  | habilitado (v : Bool)
  | usuario (v : Option String)
deriving DecidableEq, Repr

/-- Applies one field write to the shared state. -/
def aplica_escritura (s : EstadoSistema) : EscrituraCampo → EstadoSistema
  | EscrituraCampo.puerta v => { s with estado_puerta := v }
  | EscrituraCampo.habilitado v => { s with boton_habilitado := v }
  | EscrituraCampo.usuario v => { s with usuario_actual := v }

/-- The three separate shared-dict assignments of `cerrar_puertas`
(lines 235-237), in source order. -/
def escrituras_cierre : List EscrituraCampo :=
  [EscrituraCampo.puerta "CERRADA", EscrituraCampo.habilitado false,
   EscrituraCampo.usuario none]

/-- The copy `dict(estado_sistema)` taken by `obtener_estado`
(line 524) when the writer has completed the first `k` of the listed
field writes: the copy itself is one manager operation, so it lands
between two individual writes. -/
def instantanea (s : EstadoSistema) (ws : List EscrituraCampo) (k : Nat) :
    EstadoSistema :=
  (ws.take k).foldl aplica_escritura s

/-! ## Theorems -/

/-- Claim C4: after a completed door-close operation — either the close
command issued at the end of a crossing wait, or the initialisation
close from the startup state — the state has the door `CERRADA`, the
bound user cleared, access disabled and `detectando_paso` false. -/
theorem c4_cierre_estado_seguro (laserB : Nat → Bool) (s : EstadoSistema)
    (db db2 : Bool) :
    ((cerrar_puertas db (esperar_persona_paso laserB s).estado).estado.estado_puerta
        = "CERRADA") ∧
    ((cerrar_puertas db (esperar_persona_paso laserB s).estado).estado.usuario_actual
        = none) ∧
    ((cerrar_puertas db (esperar_persona_paso laserB s).estado).estado.boton_habilitado
        = false) ∧
    ((cerrar_puertas db (esperar_persona_paso laserB s).estado).estado.detectando_paso
        = false) ∧
    ((cerrar_puertas db2 estado_inicial).estado.detectando_paso = false) := by
  cases h : (List.range ticks_timeout).find? (fun k => laserB k) <;>
    simp [esperar_persona_paso, cerrar_puertas, h, estado_inicial]

/-- Claim C6: `logout` clears `boton_habilitado` and `usuario_actual`
immediately and changes nothing else of the door-control state: door
position, crossing flag, counters, timestamps and sensor fields are
untouched, and no command (in particular no close) is enqueued. -/
theorem c6_logout_marco (s : EstadoSistema) :
    ((logout s).estado.boton_habilitado = false) ∧
    ((logout s).estado.usuario_actual = none) ∧
    ((logout s).estado.estado_puerta = s.estado_puerta) ∧
    ((logout s).estado.detectando_paso = s.detectando_paso) ∧
    ((logout s).estado.total_accesos = s.total_accesos) ∧
    ((logout s).estado.personas_dentro = s.personas_dentro) ∧
    ((logout s).estado.timestamp = s.timestamp) ∧
    ((logout s).estado.ultimo_acceso = s.ultimo_acceso) ∧
    ((logout s).estado.sistema_activo = s.sistema_activo) ∧
    ((logout s).estado.laser_a_bloqueado = s.laser_a_bloqueado) ∧
    ((logout s).estado.laser_b_bloqueado = s.laser_b_bloqueado) ∧
    ((logout s).estado.laser_A_bloqueado = s.laser_A_bloqueado) ∧
    ((logout s).estado.laser_B_bloqueado = s.laser_B_bloqueado) ∧
    ((logout s).comandos = []) := by
  simp [logout]

/-- Claim C10: `simular_acceso` enqueues a web button event exactly when
no crossing is being detected and the button is enabled; a disabled
button yields a 403 failure and a busy crossing with enabled button a
409 failure, in both cases with no event enqueued and the state
untouched. -/
theorem c10_simular_acceso (s : EstadoSistema) :
    ((simular_acceso_manual s).estado = s) ∧
    ((simular_acceso_manual s).eventos = [Evento.boton_presionado "web"] ↔
      s.detectando_paso = false ∧ s.boton_habilitado = true) ∧
    (s.boton_habilitado = false →
      (simular_acceso_manual s).status = 403 ∧
      (simular_acceso_manual s).exito = false ∧
      (simular_acceso_manual s).eventos = []) ∧
    (s.detectando_paso = true → s.boton_habilitado = true →
      (simular_acceso_manual s).status = 409 ∧
      (simular_acceso_manual s).exito = false ∧
      (simular_acceso_manual s).eventos = []) := by
  cases hd : s.detectando_paso <;> cases hb : s.boton_habilitado <;>
    simp [simular_acceso_manual, hd, hb]

/-- Busy state used to exercise C1 and C10: a crossing wait is in
progress (`detectando_paso`), the door is open and the session is still
bound. -/
def estado_ocupado : EstadoSistema :=
  { estado_inicial with
    estado_puerta := "ABIERTA"
    detectando_paso := true
    boton_habilitado := true
    usuario_actual := some "Ana"
    total_accesos := 1
    personas_dentro := 1 }

/-- Witness for C10 at concrete states: the busy 409 case and the
logged-out 403 case. -/
theorem c10_simular_acceso_witness :
    ((simular_acceso_manual estado_ocupado).status = 409 ∧
      (simular_acceso_manual estado_ocupado).exito = false ∧
      (simular_acceso_manual estado_ocupado).eventos = []) ∧
    ((simular_acceso_manual estado_inicial).status = 403 ∧
      (simular_acceso_manual estado_inicial).exito = false ∧
      (simular_acceso_manual estado_inicial).eventos = []) :=
  ⟨(c10_simular_acceso estado_ocupado).2.2.2 rfl rfl,
   (c10_simular_acceso estado_inicial).2.2.1 rfl⟩

/-- A granted access (the enabled branch of
`procesar_acceso_desde_evento`) keeps the button enabled and increments
both counters by exactly one. -/
theorem acceso_concedido_paso (ts : String) (db : Bool) (s : EstadoSistema)
    (h : s.boton_habilitado = true) :
    (procesar_acceso_desde_evento ts db s).estado.boton_habilitado = true ∧
    (procesar_acceso_desde_evento ts db s).estado.total_accesos
      = s.total_accesos + 1 ∧
    (procesar_acceso_desde_evento ts db s).estado.personas_dentro
      = s.personas_dentro + 1 := by
  simp [procesar_acceso_desde_evento, h]

/-- Iterating granted accesses adds the number of events to both
counters. -/
theorem procesar_accesos_cuenta (db : Bool) (tss : List String)
    (s : EstadoSistema) (h : s.boton_habilitado = true) :
    (procesar_accesos db tss s).total_accesos
      = s.total_accesos + tss.length ∧
    (procesar_accesos db tss s).personas_dentro
      = s.personas_dentro + tss.length := by
  induction tss generalizing s with
  | nil => simp [procesar_accesos]
  | cons ts resto ih =>
      obtain ⟨h1, h2, h3⟩ := acceso_concedido_paso ts db s h
      obtain ⟨i1, i2⟩ := ih (procesar_acceso_desde_evento ts db s).estado h1
      refine ⟨?_, ?_⟩ <;> simp only [procesar_accesos, i1, i2, h2, h3,
        List.length_cons] <;> omega

/-- Claim C5: `reiniciar_estadisticas` zeroes both counters, a granted
access increments both by exactly one, and a reset followed by the
processing of N granted button events leaves both counters at N,
whatever the prior history. -/
theorem c5_reinicio_y_cuenta (db : Bool) (tss : List String) (ts : String)
    (s : EstadoSistema) (h : s.boton_habilitado = true) :
    ((reiniciar_estadisticas s).total_accesos = 0) ∧
    ((reiniciar_estadisticas s).personas_dentro = 0) ∧
    ((procesar_acceso_desde_evento ts db s).estado.total_accesos
      = s.total_accesos + 1) ∧
    ((procesar_acceso_desde_evento ts db s).estado.personas_dentro
      = s.personas_dentro + 1) ∧
    ((procesar_accesos db tss (reiniciar_estadisticas s)).total_accesos
      = tss.length) ∧
    ((procesar_accesos db tss (reiniciar_estadisticas s)).personas_dentro
      = tss.length) := by
  obtain ⟨-, h2, h3⟩ := acceso_concedido_paso ts db s h
  have hr : (reiniciar_estadisticas s).boton_habilitado = true := h
  obtain ⟨i1, i2⟩ := procesar_accesos_cuenta db tss (reiniciar_estadisticas s) hr
  simp_all [reiniciar_estadisticas]

/-- Witness for C5: reset then two granted accesses at a concrete
logged-in state yields both counters equal to 2. -/
theorem c5_reinicio_y_cuenta_witness :
    estado_ocupado.boton_habilitado = true ∧
    (procesar_accesos true ["10:00:01", "10:00:02"]
      (reiniciar_estadisticas estado_ocupado)).total_accesos = 2 ∧
    (procesar_accesos true ["10:00:01", "10:00:02"]
      (reiniciar_estadisticas estado_ocupado)).personas_dentro = 2 :=
  ⟨rfl,
   (c5_reinicio_y_cuenta true ["10:00:01", "10:00:02"] "10:00:00"
     estado_ocupado rfl).2.2.2.2.1,
   (c5_reinicio_y_cuenta true ["10:00:01", "10:00:02"] "10:00:00"
     estado_ocupado rfl).2.2.2.2.2⟩

/-- Claim C1, counterexample: at the concrete busy state
`estado_ocupado` (door open, crossing wait in progress, session still
bound) the event loop does NOT drop a consumed `boton_presionado`
event: the counter changes from 1 to 2 and a new `abrir_puertas`
command (plus a second crossing wait) is enqueued, starting a second
open sequence — contradicting the claim that any ButtonPressed consumed
while not in the Closed state is dropped without changing counters or
enqueuing an open command. -/
theorem c1_contraejemplo :
    estado_ocupado.estado_puerta = "ABIERTA" ∧
    estado_ocupado.detectando_paso = true ∧
    (procesar_evento "10:00:05" true estado_ocupado
      (Evento.boton_presionado "fisico")).estado.total_accesos = 2 ∧
    (procesar_evento "10:00:05" true estado_ocupado
      (Evento.boton_presionado "fisico")).comandos =
      [Comando.abrir_puertas, Comando.esperar_paso] := by
  decide

/-- Claim C1, amended: the event loop drops a consumed ButtonPressed
(state unchanged, no command) exactly when access is disabled; when
access is enabled it processes the event regardless of door state, so a
ButtonPressed consumed during a crossing wait starts a second open
sequence.  Busy-state gating exists only at the web trigger gateway,
which enqueues nothing while `detectando_paso` is set. -/
theorem c1_enmendado (ts : String) (db : Bool) (origen : String)
    (s : EstadoSistema) :
    (s.boton_habilitado = false →
      (procesar_evento ts db s (Evento.boton_presionado origen)).estado = s ∧
      (procesar_evento ts db s (Evento.boton_presionado origen)).comandos = []) ∧
    (s.boton_habilitado = true →
      (procesar_evento ts db s
        (Evento.boton_presionado origen)).estado.total_accesos
        = s.total_accesos + 1 ∧
      (procesar_evento ts db s (Evento.boton_presionado origen)).comandos =
        [Comando.abrir_puertas, Comando.esperar_paso]) ∧
    (s.detectando_paso = true → (simular_acceso_manual s).eventos = []) := by
  cases hb : s.boton_habilitado <;> cases hd : s.detectando_paso <;>
    simp [procesar_evento, procesar_acceso_desde_evento,
      simular_acceso_manual, hb, hd]

/-- Witness for the amended C1: the enabled-and-busy case processes the
event, the busy web gateway enqueues nothing, and the disabled case
drops the event. -/
theorem c1_enmendado_witness :
    ((procesar_evento "10:00:05" true estado_ocupado
        (Evento.boton_presionado "fisico")).estado.total_accesos
        = estado_ocupado.total_accesos + 1 ∧
      (procesar_evento "10:00:05" true estado_ocupado
        (Evento.boton_presionado "fisico")).comandos =
        [Comando.abrir_puertas, Comando.esperar_paso]) ∧
    ((simular_acceso_manual estado_ocupado).eventos = []) ∧
    ((procesar_evento "10:00:05" true estado_inicial
        (Evento.boton_presionado "web")).estado = estado_inicial ∧
      (procesar_evento "10:00:05" true estado_inicial
        (Evento.boton_presionado "web")).comandos = []) :=
  ⟨(c1_enmendado "10:00:05" true "fisico" estado_ocupado).2.1 rfl,
   (c1_enmendado "10:00:05" true "fisico" estado_ocupado).2.2 rfl,
   (c1_enmendado "10:00:05" true "web" estado_inicial).1 rfl⟩

/-- Claim C2, counterexample: at the concrete logged-out initial state a
button event is denied — the state is unchanged and the denied display
message is shown — but the telemetry list is empty even with the
telemetry sink available (`db = true`): no telemetry record is written
on denial, contradicting the claim that a denied access issues a
display message AND a telemetry record. -/
theorem c2_contraejemplo :
    estado_inicial.boton_habilitado = false ∧
    (procesar_acceso_desde_evento "09:00:00" true estado_inicial).estado
      = estado_inicial ∧
    (procesar_acceso_desde_evento "09:00:00" true estado_inicial).lcd =
      [("ACCESO DENEGADO", "Login primero"), ("Login en Web", "Para acceder")] ∧
    (procesar_acceso_desde_evento "09:00:00" true estado_inicial).telemetria
      = [] := by
  decide

/-- Claim C2, amended: a ButtonPressed processed while access is not
enabled leaves the whole state (door position and both counters
included) unchanged, enqueues nothing, and issues a denied-access
notification consisting of a display message and a warning log entry;
no telemetry record is written for the denial. -/
theorem c2_enmendado (ts : String) (db : Bool) (s : EstadoSistema)
    (h : s.boton_habilitado = false) :
    (procesar_acceso_desde_evento ts db s).estado = s ∧
    (procesar_acceso_desde_evento ts db s).comandos = [] ∧
    (procesar_acceso_desde_evento ts db s).lcd =
      [("ACCESO DENEGADO", "Login primero"), ("Login en Web", "Para acceder")] ∧
    (procesar_acceso_desde_evento ts db s).advertencias =
      ["Intento de acceso sin login"] ∧
    (procesar_acceso_desde_evento ts db s).telemetria = [] := by
  simp [procesar_acceso_desde_evento, h]

/-- Witness for the amended C2 at the concrete initial state. -/
theorem c2_enmendado_witness :
    (procesar_acceso_desde_evento "09:00:00" true estado_inicial).estado
      = estado_inicial ∧
    (procesar_acceso_desde_evento "09:00:00" true estado_inicial).comandos
      = [] ∧
    (procesar_acceso_desde_evento "09:00:00" true estado_inicial).lcd =
      [("ACCESO DENEGADO", "Login primero"), ("Login en Web", "Para acceder")] ∧
    (procesar_acceso_desde_evento "09:00:00" true estado_inicial).advertencias =
      ["Intento de acceso sin login"] ∧
    (procesar_acceso_desde_evento "09:00:00" true estado_inicial).telemetria
      = [] :=
  c2_enmendado "09:00:00" true estado_inicial rfl

/-- Claim C3, counterexample: on the trace where sensor B is blocked at
every poll of the 15-second window there is no completed blocked-then-
clear pair — the second loop never sees a clear sample before the
timeout (`tick_libre = none`) — yet the wait records NO timeout anomaly
(`advertencias = []`, the code logs the crossing as completed at info
level) while still closing.  This contradicts the claim that whenever
no blocked-then-clear pair occurs within the timeout a timeout anomaly
is recorded. -/
theorem c3_contraejemplo :
    ((List.range ticks_timeout).all (fun _ => true) = true) ∧
    ((esperar_persona_paso (fun _ => true) estado_inicial).detectado
      = true) ∧
    ((esperar_persona_paso (fun _ => true) estado_inicial).tick_libre
      = none) ∧
    ((esperar_persona_paso (fun _ => true) estado_inicial).advertencias
      = []) ∧
    ((esperar_persona_paso (fun _ => true) estado_inicial).comandos
      = [Comando.cerrar_puertas]) := by
  decide

/-- Claim C3, amended: the crossing wait always terminates with exactly
the close command enqueued (fail-closed) and the crossing flag cleared;
it reports a detection exactly when some poll inside the 15-second
window sees sensor B blocked; the timeout anomaly is recorded exactly
when sensor B was NEVER seen blocked within the window — not whenever
no blocked-then-clear pair completes: a detected crossing, even one
whose clear sample never arrives before the timeout, closes with no
anomaly recorded. -/
theorem c3_espera_paso (laserB : Nat → Bool) (s : EstadoSistema) :
    ((esperar_persona_paso laserB s).comandos = [Comando.cerrar_puertas]) ∧
    ((esperar_persona_paso laserB s).estado.detectando_paso = false) ∧
    ((esperar_persona_paso laserB s).detectado = true ↔
      ∃ k, k < ticks_timeout ∧ laserB k = true) ∧
    ((esperar_persona_paso laserB s).detectado = false →
      (esperar_persona_paso laserB s).advertencias =
        ["Timeout: No se detecto paso en 15 segundos"]) ∧
    ((esperar_persona_paso laserB s).detectado = true →
      (esperar_persona_paso laserB s).advertencias = []) := by
  cases h : (List.range ticks_timeout).find? (fun k => laserB k) with
  | some k =>
      have hex : ((List.range ticks_timeout).find?
          (fun k => laserB k)).isSome := by rw [h]; rfl
      rw [List.find?_isSome] at hex
      simp only [List.mem_range] at hex
      obtain ⟨x, hx, hpx⟩ := hex
      refine ⟨?_, ?_, ?_, ?_, ?_⟩ <;> simp [esperar_persona_paso, h]
      exact ⟨x, hx, hpx⟩
  | none =>
      have hno : ∀ x, x < ticks_timeout → ¬ laserB x = true := by
        rw [List.find?_eq_none] at h
        intro x hx
        exact h x (List.mem_range.mpr hx)
      refine ⟨?_, ?_, ?_, ?_, ?_⟩ <;> simp [esperar_persona_paso, h]
      intro x hx
      exact Bool.eq_false_iff.mpr (hno x hx)

/-- Witness for C3: a sensor trace that never blocks yields the timeout
warning and still closes; a trace blocked from the start is detected
and closes silently. -/
theorem c3_espera_paso_witness :
    ((esperar_persona_paso (fun _ => false) estado_inicial).advertencias =
      ["Timeout: No se detecto paso en 15 segundos"]) ∧
    ((esperar_persona_paso (fun _ => false) estado_inicial).comandos =
      [Comando.cerrar_puertas]) ∧
    ((esperar_persona_paso (fun _ => true) estado_inicial).advertencias = []) ∧
    ((esperar_persona_paso (fun _ => true) estado_inicial).comandos =
      [Comando.cerrar_puertas]) :=
  ⟨(c3_espera_paso (fun _ => false) estado_inicial).2.2.2.1 (by decide),
   (c3_espera_paso (fun _ => false) estado_inicial).1,
   (c3_espera_paso (fun _ => true) estado_inicial).2.2.2.2 (by decide),
   (c3_espera_paso (fun _ => true) estado_inicial).1⟩

/-- State in which the controller is about to run the field writes of
`cerrar_puertas`: the crossing wait has just finished (flag already
cleared), the door is still open and the user still bound. -/
def estado_antes_cierre : EstadoSistema :=
  { estado_inicial with
    estado_puerta := "ABIERTA"
    boton_habilitado := true
    usuario_actual := some "Ana"
    total_accesos := 3
    personas_dentro := 2 }

/-- Claim C9, counterexample: the shared-dict copy taken after the first
of the three field writes of `cerrar_puertas` is neither the
pre-transition state nor the post-transition state: it shows the door
already `CERRADA` while the user is still bound and access still
enabled — exactly the half-updated multi-field combination the claim
says no observer can ever see. -/
theorem c9_contraejemplo :
    (instantanea estado_antes_cierre escrituras_cierre 1
      ≠ estado_antes_cierre) ∧
    (instantanea estado_antes_cierre escrituras_cierre 1 ≠
      instantanea estado_antes_cierre escrituras_cierre
        escrituras_cierre.length) ∧
    ((instantanea estado_antes_cierre escrituras_cierre 1).estado_puerta
      = "CERRADA") ∧
    ((instantanea estado_antes_cierre escrituras_cierre 1).usuario_actual
      = some "Ana") ∧
    ((instantanea estado_antes_cierre escrituras_cierre 1).boton_habilitado
      = true) ∧
    (instantanea estado_antes_cierre escrituras_cierre
        escrituras_cierre.length
      = (cerrar_puertas true estado_antes_cierre).estado) := by
  decide

/-- Claim C9, amended: the `/estado` read copies the whole shared dict
in a single manager operation, so it lands between individual field
writes; but the close transition mutates its three fields in separate
operations, so a read after the first write observes the door `CERRADA`
with the user still bound and the button state untouched — a
half-updated combination.  Only after all listed writes does the copy
agree with the completed `cerrar_puertas` state. -/
theorem c9_enmendado (s : EstadoSistema) (u : String)
    (h : s.usuario_actual = some u) :
    ((instantanea s escrituras_cierre 1).estado_puerta = "CERRADA") ∧
    ((instantanea s escrituras_cierre 1).usuario_actual = some u) ∧
    ((instantanea s escrituras_cierre 1).boton_habilitado
      = s.boton_habilitado) ∧
    (instantanea s escrituras_cierre escrituras_cierre.length
      = (cerrar_puertas false s).estado) := by
  simp [instantanea, escrituras_cierre, aplica_escritura, cerrar_puertas, h]

/-- Witness for the amended C9 at the concrete pre-close state. -/
theorem c9_enmendado_witness :
    ((instantanea estado_antes_cierre escrituras_cierre 1).estado_puerta
      = "CERRADA") ∧
    ((instantanea estado_antes_cierre escrituras_cierre 1).usuario_actual
      = some "Ana") ∧
    ((instantanea estado_antes_cierre escrituras_cierre 1).boton_habilitado
      = estado_antes_cierre.boton_habilitado) ∧
    (instantanea estado_antes_cierre escrituras_cierre
        escrituras_cierre.length
      = (cerrar_puertas false estado_antes_cierre).estado) :=
  c9_enmendado estado_antes_cierre "Ana" rfl

/-- Whether an LCD operation writes at most `cols` characters. -/
def escribe_acotado (cols : Nat) : OpLcd → Bool
  | OpLcd.escribir t => decide (t.length ≤ cols)
  | _ => true

/-- Writes carried by either outcome of an LCD run. -/
def escrituras_resultado :
    Except (String × List (List Char)) (List (List Char)) →
    List (List Char)
  | Except.ok ws => ws
  | Except.error (_, ws) => ws

/-- Running a sequence of bounded LCD operations only ever performs
bounded writes, whether or not the hardware raises. -/
theorem ejecuta_ops_acotado (falla : Nat → Option String) (cols : Nat) :
    ∀ (ops : List OpLcd) (i : Nat) (acc : List (List Char)),
    ops.all (escribe_acotado cols) = true →
    acc.all (fun w => decide (w.length ≤ cols)) = true →
    (escrituras_resultado (ejecuta_ops falla i ops acc)).all
      (fun w => decide (w.length ≤ cols)) = true := by
  intro ops
  induction ops with
  | nil =>
      intro i acc _ hacc
      simpa [ejecuta_ops, escrituras_resultado] using hacc
  | cons op resto ih =>
      intro i acc hops hacc
      rw [List.all_cons, Bool.and_eq_true] at hops
      cases hf : falla i with
      | some e =>
          simpa [ejecuta_ops, hf, escrituras_resultado] using hacc
      | none =>
          cases op with
          | escribir t =>
              have hacc2 : (acc ++ [t]).all
                  (fun w => decide (w.length ≤ cols)) = true := by
                rw [List.all_append]
                simp only [Bool.and_eq_true]
                exact ⟨hacc, by simpa [escribe_acotado] using hops.1⟩
              simpa [ejecuta_ops, hf] using ih (i + 1) (acc ++ [t]) hops.2 hacc2
          | limpiar =>
              simpa [ejecuta_ops, hf] using ih (i + 1) acc hops.2 hacc
          | posicionar fila col =>
              simpa [ejecuta_ops, hf] using ih (i + 1) acc hops.2 hacc

/-- The operations `mostrar_lcd` issues are all bounded by the display
width: both written lines are truncated with `take cols`. -/
theorem ops_mostrar_acotado (cols : Nat) (l1 l2 : List Char) :
    (ops_mostrar cols l1 l2).all (escribe_acotado cols) = true := by
  by_cases h : l2 = [] <;>
    simp [ops_mostrar, escribe_acotado, h, List.length_take]

/-- Claim C7: `mostrar_lcd` never lets an error reach its caller — with
the display absent it performs no write, with the display present every
hardware failure is caught and logged — and every line actually written
is truncated to the display width. -/
theorem c7_mostrar_lcd (cols : Nat) (pres : Bool)
    (falla : Nat → Option String) (l1 l2 : List Char) :
    (es_ok (mostrar_lcd cols pres falla l1 l2) = true) ∧
    ((escrituras_de (mostrar_lcd cols pres falla l1 l2)).all
      (fun w => decide (w.length ≤ cols)) = true) ∧
    (escrituras_de (mostrar_lcd cols false falla l1 l2) = []) := by
  refine ⟨?_, ?_, by simp [mostrar_lcd, escrituras_de]⟩
  · cases pres with
    | false => simp [mostrar_lcd, es_ok]
    | true =>
        cases hr : ejecuta_ops falla 0 (ops_mostrar cols l1 l2) [] with
        | ok ws => simp [mostrar_lcd, hr, es_ok]
        | error p => cases p with
          | mk e ws => simp [mostrar_lcd, hr, es_ok]
  · cases pres with
    | false => simp [mostrar_lcd, escrituras_de]
    | true =>
        have hb := ejecuta_ops_acotado falla cols (ops_mostrar cols l1 l2) 0 []
          (ops_mostrar_acotado cols l1 l2) rfl
        cases hr : ejecuta_ops falla 0 (ops_mostrar cols l1 l2) [] with
        | ok ws =>
            rw [hr] at hb
            simpa [mostrar_lcd, hr, escrituras_de, escrituras_resultado] using hb
        | error p => cases p with
          | mk e ws =>
              rw [hr] at hb
              simpa [mostrar_lcd, hr, escrituras_de, escrituras_resultado] using hb

/-- The polling loop of the laser monitor is exactly the pairwise edge
detector: each poll compares the current sample with the previous one. -/
theorem monitor_laseres_zip (ms : List (Bool × Bool)) :
    ∀ prev, monitor_laseres prev ms =
      List.zipWith eventos_sondeo (prev :: ms) ms := by
  induction ms with
  | nil => intro prev; rfl
  | cons m ms ih => intro prev; simp [monitor_laseres, List.zipWith, ih m]

/-- Every element emitted by the button debounce is at least `listo`. -/
theorem debounce_cota (ts : List Nat) :
    ∀ (listo x : Nat), x ∈ debounce_boton listo ts → listo ≤ x := by
  induction ts with
  | nil =>
      intro listo x h
      simp [debounce_boton] at h
  | cons t ts ih =>
      intro listo x h
      by_cases hlt : t < listo
      · rw [debounce_boton, if_pos hlt] at h
        exact ih listo x h
      · rw [debounce_boton, if_neg hlt] at h
        rcases List.mem_cons.mp h with rfl | hm
        · omega
        · have := ih (t + tiempo_debounce) x hm
          omega

/-- Prepending an element below all others by at least the quiet period
preserves the spacing check. -/
theorem bien_espaciado_cons (l : List Nat) (a : Nat)
    (h : ∀ x ∈ l, a + tiempo_debounce ≤ x)
    (hl : bien_espaciado l = true) :
    bien_espaciado (a :: l) = true := by
  cases l with
  | nil => rfl
  | cons b r =>
      have hb : a + tiempo_debounce ≤ b := h b (List.mem_cons_self b r)
      simp [bien_espaciado, hb, hl]

/-- The button debounce output always satisfies the spacing check. -/
theorem debounce_espaciado (ts : List Nat) :
    ∀ listo, bien_espaciado (debounce_boton listo ts) = true := by
  induction ts with
  | nil => intro listo; rfl
  | cons t ts ih =>
      intro listo
      by_cases hlt : t < listo
      · rw [debounce_boton, if_pos hlt]
        exact ih listo
      · rw [debounce_boton, if_neg hlt]
        exact bien_espaciado_cons (debounce_boton (t + tiempo_debounce) ts) t
          (fun x hx => debounce_cota ts (t + tiempo_debounce) x hx)
          (ih (t + tiempo_debounce))

/-- The button debounce only ever emits instants that were pressed. -/
theorem debounce_subconjunto (ts : List Nat) :
    ∀ (listo x : Nat), x ∈ debounce_boton listo ts → x ∈ ts := by
  induction ts with
  | nil =>
      intro listo x h
      simp [debounce_boton] at h
  | cons t ts ih =>
      intro listo x h
      by_cases hlt : t < listo
      · rw [debounce_boton, if_pos hlt] at h
        exact List.mem_cons_of_mem t (ih listo x h)
      · rw [debounce_boton, if_neg hlt] at h
        rcases List.mem_cons.mp h with rfl | hm
        · exact List.mem_cons_self x ts
        · exact List.mem_cons_of_mem t (ih (t + tiempo_debounce) x hm)

/-- Claim C8: the laser monitor emits events for a poll purely from the
(previous sample, current sample) pair, and a poll whose sample equals
the previous one emits nothing; the button monitor only emits pressed
instants and any two consecutive emitted button events are at least the
fixed 500 ms quiet period apart. -/
theorem c8_monitor_sensores :
    (∀ (prev : Bool × Bool) (ms : List (Bool × Bool)),
      monitor_laseres prev ms = List.zipWith eventos_sondeo (prev :: ms) ms) ∧
    (∀ p : Bool × Bool, eventos_sondeo p p = []) ∧
    (∀ ts : List Nat, bien_espaciado (debounce_boton 0 ts) = true) ∧
    (∀ ts : List Nat, (debounce_boton 0 ts).all
      (fun t => decide (t ∈ ts)) = true) := by
  refine ⟨fun prev ms => monitor_laseres_zip ms prev,
    fun p => by simp [eventos_sondeo],
    fun ts => debounce_espaciado ts 0,
    fun ts => ?_⟩
  rw [List.all_eq_true]
  intro x hx
  exact decide_eq_true (debounce_subconjunto ts 0 x hx)

end CanceladoraMetro
